import Mathlib

/-!
Shallow embedding of the `RedisCacheService` facade (NestJS + ioredis cache
layer) and proofs about its documented behaviour.

The remote store (Redis) is an external collaborator: its primitive
GET/SET/DEL/SCAN/FLUSHDB/DBSIZE/INFO results appear as explicit parameters
(oracles) of each operation's model, so every theorem quantifies over what
the store may answer.  Serialization (`JSON.stringify` / `JSON.parse`) is an
external library too and is modelled as an abstract encode/decode pair; a
decode failure is the thrown-exception path of `JSON.parse`.
-/

namespace RedisCache

/-- JavaScript-style whitespace test used by `String.prototype.trim`
(restricted to the characters that occur in Redis INFO output). -/
def jsWhitespace (c : Char) : Bool :=
  c = ' ' || c = '\t' || c = '\n' || c = '\r'

/-- `String.prototype.trim` on a character list: drop whitespace at both ends. -/
def jsTrimList (cs : List Char) : List Char :=
  ((cs.dropWhile jsWhitespace).reverse.dropWhile jsWhitespace).reverse

/-- One step of `key.replace(pat, '')` (JavaScript `String.replace` with a
string argument): remove the FIRST occurrence of `pat` anywhere in the list,
leaving the list unchanged if `pat` does not occur. -/
def stripOnce (pat : List Char) : List Char → List Char
  | [] => []
  | c :: cs =>
    if List.isPrefixOf pat (c :: cs) then List.drop pat.length (c :: cs)
    else c :: stripOnce pat cs

/-- `key.replace(pat, '')` on strings, as used by `delPattern` and
`getKeysByPattern` to strip the configured key namespace from scanned keys. -/
def replaceFirst (key pat : String) : String :=
  String.mk (stripOnce pat.data key.data)

/-- Per-call options (`CacheOperationOptions`): an optional per-call
fire-and-forget override. -/
structure CacheOperationOptions where
  fireAndForget : Option Bool

/-- The facade's construction-time configuration: the client key namespace
(`client.options.keyPrefix || ''`), the default TTL (`options.ttl`) and the
facade-level fire-and-forget default (`options.fireAndForget || false`). -/
structure FacadeConfig where
  keyPfx : String
  defaultTtl : Option Nat
  fireAndForget : Bool

/-- `options?.fireAndForget !== undefined ? options.fireAndForget :
this.fireAndForget` — the execution-mode resolution used by `set`, `delKey`,
`delKeys` and `reset`. -/
def resolveFireAndForget (options : Option CacheOperationOptions) (dflt : Bool) : Bool :=
  match options with
  | none => dflt
  | some o =>
    match o.fireAndForget with
    | none => dflt
    | some b => b

/-- Abstract serialization codec standing for `JSON.stringify` (total) and
`JSON.parse` (may throw, hence `Except`). -/
structure Codec (α : Type) where
  enc : α → String
  dec : String → Except String α

/-- `get(key)`: `stored` is the raw `client.get(key)` answer.  `null` maps to
an ok `none` (a miss, not an error); otherwise the payload is decoded and a
decode failure propagates (the catch block rethrows). -/
def get {α : Type} (codec : Codec α) (stored : Option String) :
    Except String (Option α) :=
  match stored with
  | none => Except.ok none
  | some raw =>
    match codec.dec raw with
    | Except.ok v => Except.ok (some v)
    | Except.error e => Except.error e

/-- The SET command issued to the store: key, serialized payload, and the
`EX` expiry seconds if one was attached. -/
structure SetOp where
  key : String
  payload : String
  expiry : Option Nat
  deriving DecidableEq, Repr

/-- Observable outcome of a `set` call: the command sent, the resolved
execution mode, and what the caller sees (`ok ()` immediately in
fire-and-forget mode, the awaited store acknowledgement otherwise). -/
structure SetOut where
  op : SetOp
  faf : Bool
  callerResult : Except String Unit
  deriving Repr

/-- `ttl ?? this.defaultTtl`. -/
def effectiveTtl (ttl dflt : Option Nat) : Option Nat :=
  match ttl with
  | some t => some t
  | none => dflt

/-- `set(key, value, ttl?, options?)`.  `storeAck` is the store's answer to
the SET command.  The `EX` option is attached only when the resolved TTL is
truthy (defined and nonzero, mirroring `ttlToUse ? ... : ...`); in
fire-and-forget mode the command is issued but not awaited and the caller
gets `ok ()` regardless of `storeAck`. -/
def set {α : Type} (cfg : FacadeConfig) (codec : Codec α)
    (storeAck : Except String Unit) (key : String) (v : α)
    (ttl : Option Nat) (options : Option CacheOperationOptions) : SetOut :=
  let serialized := codec.enc v
  let ttlToUse := effectiveTtl ttl cfg.defaultTtl
  let useFaF := resolveFireAndForget options cfg.fireAndForget
  let expiry :=
    match ttlToUse with
    | some t => if t ≠ 0 then some t else none
    | none => none
  { op := ⟨key, serialized, expiry⟩
    faf := useFaF
    callerResult := if useFaF then Except.ok () else storeAck }

/-- Observable outcome of `getOrSet`: how many times the compute function ran,
the internal `set` call it made (if any), and the caller-visible result. -/
structure GetOrSetOut (α : Type) where
  fnCalls : Nat
  innerSet : Option SetOut
  result : Except String α

/-- `getOrSet(key, fn, ttl?)`: reads `client.get(key)` (the `stored` oracle);
on a non-null answer decodes and returns it without running `fn`; on `null`
runs `fn` (`fnResult` oracle), and if it succeeds calls `this.set(key, result,
ttl)` — with NO per-call options — then returns the computed value; a failure
of `fn` or of the awaited inner `set` is rethrown by the catch block. -/
def getOrSet {α : Type} (cfg : FacadeConfig) (codec : Codec α)
    (stored : Option String) (fnResult : Except String α) (ttl : Option Nat)
    (storeAck : Except String Unit) (key : String) : GetOrSetOut α :=
  match stored with
  | some raw =>
    match codec.dec raw with
    | Except.ok v => ⟨0, none, Except.ok v⟩
    | Except.error e => ⟨0, none, Except.error e⟩
  | none =>
    match fnResult with
    | Except.error e => ⟨1, none, Except.error e⟩
    | Except.ok computed =>
      let s := set cfg codec storeAck key computed ttl none
      match s.callerResult with
      | Except.error e => ⟨1, some s, Except.error e⟩
      | Except.ok _ => ⟨1, some s, Except.ok computed⟩

/-- `delKey(key, options?)`: resolves the execution mode; fire-and-forget
returns 0 at once (failures only logged), blocking awaits the DEL and returns
the store's count or rethrows its error (`storeCount` oracle).  The first
component records the resolved mode. -/
def delKey (cfg : FacadeConfig) (storeCount : Except String Nat)
    (key : String) (options : Option CacheOperationOptions) :
    Bool × Except String Nat :=
  let _ := key
  let useFaF := resolveFireAndForget options cfg.fireAndForget
  if useFaF then (true, Except.ok 0) else (false, storeCount)

/-- `delKeys(keys, options?)`: an empty key array returns 0 before any mode
resolution or store call (first component `none`); otherwise behaves like
`delKey` over the batch. -/
def delKeys (cfg : FacadeConfig) (storeCount : Except String Nat)
    (keys : List String) (options : Option CacheOperationOptions) :
    Option Bool × Except String Nat :=
  if keys.length = 0 then (none, Except.ok 0)
  else
    let useFaF := resolveFireAndForget options cfg.fireAndForget
    if useFaF then (some true, Except.ok 0) else (some false, storeCount)

/-- `reset(options?)`: resolves the execution mode and issues FLUSHDB;
blocking awaits the acknowledgement, fire-and-forget returns at once. -/
def reset (cfg : FacadeConfig) (storeAck : Except String Unit)
    (options : Option CacheOperationOptions) : Bool × Except String Unit :=
  let useFaF := resolveFireAndForget options cfg.fireAndForget
  if useFaF then (true, Except.ok ()) else (false, storeAck)

/-- One SCAN answer: the next cursor and the key batch. -/
abbrev ScanResp : Type := String × List String

/-- The prefix-stripping step applied to one scanned batch:
`keyPrefix ? keys.map(key => key.replace(keyPrefix, '')) : keys`. -/
def stripBatch (keyPfx : String) (keys : List String) : List String :=
  if keyPfx ≠ "" then keys.map (fun k => replaceFirst k keyPfx) else keys

/-- The shared do/while SCAN loop of `delPattern` and `getKeysByPattern`:
`responses` is the sequence of answers the store gives to the successive SCAN
calls.  Each iteration appends the (stripped) batch when nonempty and stops
exactly when the returned cursor is the sentinel "0"; if the trace ends
without the sentinel the loop has not terminated (`none`). -/
def scanLoop (keyPfx : String) : List ScanResp → List String → Option (List String)
  | [], _ => none
  | (c, keys) :: rest, acc =>
    let acc2 := if keys.length > 0 then acc ++ stripBatch keyPfx keys else acc
    if c = "0" then some acc2 else scanLoop keyPfx rest acc2

/-- All keys accumulated by the loop over a response list: the concatenation
of the stripped batches. -/
def allStripped (keyPfx : String) (rs : List ScanResp) : List String :=
  (rs.map (fun r => stripBatch keyPfx r.2)).flatten

/-- `getKeysByPattern(pattern)`: runs the SCAN loop and returns the stripped
keys (the pattern only determines which keys the store answers with, hence it
is absorbed into the `responses` oracle). -/
def getKeysByPattern (cfg : FacadeConfig) (responses : List ScanResp) :
    Option (List String) :=
  scanLoop cfg.keyPfx responses []

/-- Observable outcome of `delPattern`: the keys handed to the DEL command
(`none` when no DEL was issued), whether that DEL was awaited, and the count
returned to the caller. -/
structure DelPatternOut where
  delIssued : Option (List String)
  awaitedDel : Bool
  count : Nat
  deriving Repr

/-- `delPattern(pattern)`: runs the SCAN loop; with no matching key it returns
0 without issuing a DEL; otherwise it deletes the keys directly, using the
FACADE-LEVEL fire-and-forget default (`this.fireAndForget` — the signature has
no per-call options): blocking awaits and returns the store's count
(`storeDelCount` oracle), fire-and-forget returns 0. -/
def delPattern (cfg : FacadeConfig) (responses : List ScanResp)
    (storeDelCount : Nat) : Option DelPatternOut :=
  match scanLoop cfg.keyPfx responses [] with
  | none => none
  | some allKeys =>
    if allKeys.length = 0 then some ⟨none, false, 0⟩
    else if cfg.fireAndForget then some ⟨some allKeys, false, 0⟩
    else some ⟨some allKeys, true, storeDelCount⟩

/-- The sequential loop of `delPatterns`: runs `dp` (the `delPattern` call,
as a transformer of the abstract store state σ) on each pattern in order,
summing the counts; the first failure is rethrown, discarding the
accumulated sum and keeping the state the preceding calls produced. -/
def delPatternsLoop {σ : Type} (dp : σ → String → Except String (Nat × σ)) :
    σ → Nat → List String → Except String Nat × σ
  | s, acc, [] => (Except.ok acc, s)
  | s, acc, p :: ps =>
    match dp s p with
    | Except.error e => (Except.error e, s)
    | Except.ok (n, s2) => delPatternsLoop dp s2 (acc + n) ps

/-- `delPatterns(patterns)`: empty input returns 0 with no store interaction,
otherwise the sequential loop above. -/
def delPatterns {σ : Type} (dp : σ → String → Except String (Nat × σ))
    (s : σ) (patterns : List String) : Except String Nat × σ :=
  if patterns.length = 0 then (Except.ok 0, s)
  else delPatternsLoop dp s 0 patterns

/-- A key-value store snapshot (Redis string keyspace), newest binding first:
SET is modelled by consing and GET by the first binding found, which gives
overwrite semantics.  Standard store semantics assumed by the spec, section 6. -/
def Store : Type := List (String × String)

/-- Store SET primitive (expiry not modelled: the round-trip claim assumes the
TTL has not elapsed). -/
def storeSet (s : Store) (k v : String) : Store := (k, v) :: s

/-- Store GET primitive. -/
def storeGet (s : Store) (k : String) : Option String := s.lookup k

/-- Applying the SET command a `set` call issued to a store snapshot. -/
def applySet (s : Store) (op : SetOp) : Store := storeSet s op.key op.payload

/-- The health snapshot `getStats` returns. -/
structure StatsSnapshot where
  connected : Bool
  keyCount : Nat
  memoryUsed : Option String
  memoryPeak : Option String
  memoryFragmentation : Option String
  error : Option String
  deriving DecidableEq, Repr

/-- `info.match(new RegExp(key + ":(.+)"))` at the head of `s`: succeeds when
`needle` (the key followed by a colon) is a prefix of `s` and at least one
non-line-terminator character follows, capturing the maximal such run
(JavaScript `.` does not cross line terminators). -/
def matchAtHead (needle s : List Char) : Option (List Char) :=
  if List.isPrefixOf needle s then
    let captured := (List.drop needle.length s).takeWhile
      (fun c => c ≠ '\n' && c ≠ '\r')
    if captured.length > 0 then some captured else none
  else none

/-- First position in the info text where the regex matches. -/
def searchInfo (needle : List Char) : List Char → Option (List Char)
  | [] => matchAtHead needle []
  | c :: cs =>
    match matchAtHead needle (c :: cs) with
    | some r => some r
    | none => searchInfo needle cs

/-- `parseMemoryInfo(info, key)`: the first regex match of `key:(.+)` in the
info blob, trimmed; `undefined` when absent.  Never throws. -/
def parseMemoryInfo (info key : String) : Option String :=
  (searchInfo (key ++ ":").data info.data).map
    (fun cs => String.mk (jsTrimList cs))

/-- `getStats()`: `status` is `client.status`; `dbsizeR` and `infoR` are the
DBSIZE and INFO("memory") oracles.  A non-ready client short-circuits to a
disconnected snapshot with NO store call; a failure of either store call is
caught and converted into a disconnected snapshot carrying the error message.
The second component lists the store calls issued. -/
def getStats (status : String) (dbsizeR : Except String Nat)
    (infoR : Except String String) : StatsSnapshot × List String :=
  if status ≠ "ready" then
    (⟨false, 0, none, none, none, some "Redis not connected"⟩, [])
  else
    match dbsizeR with
    | Except.error e => (⟨false, 0, none, none, none, some e⟩, ["dbsize"])
    | Except.ok keyCount =>
      match infoR with
      | Except.error e =>
        (⟨false, 0, none, none, none, some e⟩, ["dbsize", "info"])
      | Except.ok memoryInfo =>
        (⟨true, keyCount,
          parseMemoryInfo memoryInfo "used_memory_human",
          parseMemoryInfo memoryInfo "used_memory_peak_human",
          parseMemoryInfo memoryInfo "mem_fragmentation_ratio",
          none⟩, ["dbsize", "info"])

/-- Concrete facade configuration used to instantiate theorems: namespace
"app:", no default TTL, blocking default. -/
def cfg0 : FacadeConfig := ⟨"app:", none, false⟩

/-- Decimal digit value of a character, if any. -/
def digitVal (c : Char) : Option Nat :=
  if '0' ≤ c ∧ c ≤ '9' then some (c.toNat - '0'.toNat) else none

/-- Structural decimal parser over a character list. -/
def parseNatList : List Char → Nat → Option Nat
  | [], acc => some acc
  | c :: cs, acc =>
    match digitVal c with
    | none => none
    | some d => parseNatList cs (acc * 10 + d)

/-- A concrete serialization codec on `Nat` (decimal strings), with a real
decode-failure path for non-numeric payloads. -/
def codecNat : Codec Nat :=
  ⟨fun n => toString n,
   fun s =>
     match s.data with
     | [] => Except.error "Unexpected token"
     | c :: cs =>
       match parseNatList (c :: cs) 0 with
       | some n => Except.ok n
       | none => Except.error "Unexpected token"⟩

/-- A concrete `delPattern` behaviour on a store modelled as a key list:
deleting a pattern removes the equal keys and reports their number, and the
pattern "boom" fails. -/
def dpTest : List String → String → Except String (Nat × List String) :=
  fun st pat =>
    if pat = "boom" then Except.error "fail"
    else Except.ok ((st.filter (fun k => k = pat)).length,
                    st.filter (fun k => k ≠ pat))

theorem stripBatch_nil (pfx : String) : stripBatch pfx [] = [] := by
  unfold stripBatch
  split <;> rfl

theorem scanLoop_cons (pfx c : String) (keys : List String)
    (rest : List ScanResp) (acc : List String) :
    scanLoop pfx ((c, keys) :: rest) acc =
      if c = "0" then some (acc ++ stripBatch pfx keys)
      else scanLoop pfx rest (acc ++ stripBatch pfx keys) := by
  cases keys with
  | nil => simp [scanLoop, stripBatch_nil]
  | cons k ks => simp [scanLoop]

theorem scanLoop_sentinel (pfx : String) (rs1 : List ScanResp)
    (ks : List String) :
    ∀ (rs2 : List ScanResp) (acc : List String),
      (∀ r ∈ rs1, r.1 ≠ "0") →
      scanLoop pfx (rs1 ++ ("0", ks) :: rs2) acc
        = some (acc ++ allStripped pfx (rs1 ++ [("0", ks)])) := by
  induction rs1 with
  | nil =>
    intro rs2 acc _
    simp [scanLoop_cons, allStripped]
  | cons r rs1 ih =>
    intro rs2 acc h
    obtain ⟨c, keys⟩ := r
    have hc : c ≠ "0" := h (c, keys) (List.mem_cons_self _ _)
    rw [List.cons_append, scanLoop_cons, if_neg hc,
        ih rs2 (acc ++ stripBatch pfx keys)
          (fun r hr => h r (List.mem_cons_of_mem _ hr))]
    simp [allStripped]

theorem scanLoop_no_sentinel (pfx : String) (rs : List ScanResp) :
    ∀ acc : List String, (∀ r ∈ rs, r.1 ≠ "0") →
      scanLoop pfx rs acc = none := by
  induction rs with
  | nil => intro acc _; rfl
  | cons r rs ih =>
    intro acc h
    obtain ⟨c, keys⟩ := r
    have hc : c ≠ "0" := h (c, keys) (List.mem_cons_self _ _)
    rw [scanLoop_cons, if_neg hc]
    exact ih _ (fun r hr => h r (List.mem_cons_of_mem _ hr))

theorem delPatternsLoop_append {σ : Type}
    (dp : σ → String → Except String (Nat × σ)) (ps qs : List String) :
    ∀ (s : σ) (a n : Nat) (s2 : σ),
      delPatternsLoop dp s a ps = (Except.ok n, s2) →
      delPatternsLoop dp s a (ps ++ qs) = delPatternsLoop dp s2 n qs := by
  induction ps with
  | nil =>
    intro s a n s2 h
    simp [delPatternsLoop] at h
    obtain ⟨h1, h2⟩ := h
    subst h1; subst h2
    rfl
  | cons p ps ih =>
    intro s a n s2 h
    rw [delPatternsLoop] at h
    rw [List.cons_append, delPatternsLoop]
    cases hd : dp s p with
    | error e => rw [hd] at h; simp at h
    | ok r =>
      rw [hd] at h
      exact ih r.2 (a + r.1) n s2 h

/-- Claim C1: the prefix stripping inside `delPattern` and `getKeysByPattern`
is `key.replace(keyPrefix, '')`, an UNANCHORED first-occurrence removal.  On
keys that do start with the prefix it removes exactly one leading occurrence
("app:app:x" becomes "app:x"), but it corrupts a key that merely contains the
prefix elsewhere: "xapp:y" (which does not start with "app:") becomes "xy"
instead of staying unchanged, refuting the claim's second half. -/
theorem C1_strip_unanchored :
    stripBatch "app:" ["app:app:x", "xapp:y"] = ["app:x", "xy"]
    ∧ replaceFirst "xapp:y" "app:" ≠ "xapp:y" := by
  constructor
  · decide
  · decide

/-- Claim C2: `set`, `delKey`, `delKeys` (nonempty input) and `reset` all
resolve their execution mode as per-call override when explicitly provided
(even an explicit `false` over a `true` default), else the facade default;
with facade default `true` and per-call `{fireAndForget:false}` `delKey`
blocks and returns the store's true count, and with facade default `false`
and per-call `{fireAndForget:true}` it returns 0 whatever the store outcome. -/
theorem C2_fire_and_forget_precedence (cfg : FacadeConfig) (codec : Codec Nat)
    (ack : Except String Unit) (cnt : Except String Nat) (k : String) (v : Nat)
    (ttl : Option Nat) (keys : List String) (opts : Option CacheOperationOptions)
    (hkeys : keys ≠ []) :
    ((set cfg codec ack k v ttl opts).faf
        = resolveFireAndForget opts cfg.fireAndForget
      ∧ (delKey cfg cnt k opts).1 = resolveFireAndForget opts cfg.fireAndForget
      ∧ (delKeys cfg cnt keys opts).1
        = some (resolveFireAndForget opts cfg.fireAndForget)
      ∧ (reset cfg ack opts).1 = resolveFireAndForget opts cfg.fireAndForget)
    ∧ (∀ b : Bool, resolveFireAndForget (some ⟨some b⟩) cfg.fireAndForget = b)
    ∧ resolveFireAndForget none cfg.fireAndForget = cfg.fireAndForget
    ∧ resolveFireAndForget (some ⟨none⟩) cfg.fireAndForget = cfg.fireAndForget
    ∧ (∀ n : Nat,
        delKey { cfg with fireAndForget := true } (Except.ok n) k
            (some ⟨some false⟩)
          = (false, Except.ok n))
    ∧ delKey { cfg with fireAndForget := false } cnt k (some ⟨some true⟩)
        = (true, Except.ok 0) := by
  have hlen : keys.length ≠ 0 := by
    simpa [List.length_eq_zero] using hkeys
  refine ⟨⟨?_, ?_, ?_, ?_⟩, ?_, ?_, ?_, ?_, ?_⟩
  · cases h : resolveFireAndForget opts cfg.fireAndForget <;> simp [set, h]
  · cases h : resolveFireAndForget opts cfg.fireAndForget <;> simp [delKey, h]
  · cases h : resolveFireAndForget opts cfg.fireAndForget <;>
      simp [delKeys, hlen, h]
  · cases h : resolveFireAndForget opts cfg.fireAndForget <;> simp [reset, h]
  · intro b; rfl
  · rfl
  · rfl
  · intro n; rfl
  · rfl

theorem C2_fire_and_forget_precedence_witness :
    delKey ⟨"", none, true⟩ (Except.ok 5) "k" (some ⟨some false⟩)
      = (false, Except.ok 5)
    ∧ delKey ⟨"", none, false⟩ (Except.ok 7) "k" (some ⟨some true⟩)
      = (true, Except.ok 0) := by
  have h := C2_fire_and_forget_precedence ⟨"", none, false⟩ codecNat
    (Except.ok ()) (Except.ok 7) "k" 0 none ["a"] (some ⟨some true⟩)
    (by decide)
  exact ⟨h.2.2.2.2.1 5, h.2.2.2.2.2⟩

/-- Claim C7: `get` on an absent key answers the distinguishable `none` result
without error, while a present payload that fails to decode makes `get`
propagate the decode error rather than report a miss. -/
theorem C7_get_absent_vs_decode {α : Type} (codec : Codec α) (raw : String) :
    get codec (none : Option String) = (Except.ok none : Except String (Option α))
    ∧ (∀ e, codec.dec raw = Except.error e →
        get codec (some raw) = Except.error e)
    ∧ (∀ v, codec.dec raw = Except.ok v →
        get codec (some raw) = Except.ok (some v)) := by
  refine ⟨rfl, ?_, ?_⟩
  · intro e he; simp [get, he]
  · intro v hv; simp [get, hv]

theorem C7_get_absent_vs_decode_witness :
    get codecNat (none : Option String) = Except.ok none
    ∧ get codecNat (some "x") = Except.error "Unexpected token"
    ∧ get codecNat (some "42") = Except.ok (some 42) := by
  refine ⟨(C7_get_absent_vs_decode codecNat "x").1,
    (C7_get_absent_vs_decode codecNat "x").2.1 "Unexpected token" rfl,
    (C7_get_absent_vs_decode codecNat "42").2.2 42 rfl⟩

/-- Claim C8: `set(k, v)` followed by `get(k)` (TTL not elapsed, no
intervening delete) returns the value restored by the encode/decode
round-trip: when the codec round-trips `v`, the read gives back exactly `v`,
for every configuration, prior store content, TTL and per-call options. -/
theorem C8_set_get_roundtrip (cfg : FacadeConfig) {α : Type} (codec : Codec α)
    (st : Store) (ack : Except String Unit) (k : String) (v : α)
    (ttl : Option Nat) (opts : Option CacheOperationOptions)
    (h : codec.dec (codec.enc v) = Except.ok v) :
    get codec (storeGet (applySet st (set cfg codec ack k v ttl opts).op) k)
      = Except.ok (some v) := by
  have hop : (set cfg codec ack k v ttl opts).op
      = ⟨k, codec.enc v, (set cfg codec ack k v ttl opts).op.expiry⟩ := rfl
  rw [hop]
  simp [applySet, storeSet, storeGet, List.lookup, get, h]

theorem C8_set_get_roundtrip_witness :
    get codecNat
      (storeGet (applySet ([] : Store)
        (set cfg0 codecNat (Except.ok ()) "k" 42 none none).op) "k")
      = Except.ok (some 42) :=
  C8_set_get_roundtrip cfg0 codecNat [] (Except.ok ()) "k" 42 none none rfl

/-- Claim C3: the cursor loop shared by `delPattern` and `getKeysByPattern`
terminates exactly when a SCAN call returns the sentinel "0" again and never
before: over any response trace whose first sentinel answer is `("0", ks)`,
the loop consumes every earlier batch (empty batches with a non-sentinel
cursor included) and returns all accumulated stripped keys; an empty batch
with a non-sentinel cursor merely continues; and a trace that never returns
the sentinel never completes (the loop is total exactly under the
eventually-sentinel precondition). -/
theorem C3_scan_cursor_loop (pfx : String) (rs1 rs2 : List ScanResp)
    (ks : List String) (h : ∀ r ∈ rs1, r.1 ≠ "0") :
    scanLoop pfx (rs1 ++ ("0", ks) :: rs2) []
        = some (allStripped pfx (rs1 ++ [("0", ks)]))
    ∧ (∀ (c : String) (rest : List ScanResp) (acc : List String), c ≠ "0" →
        scanLoop pfx ((c, []) :: rest) acc = scanLoop pfx rest acc)
    ∧ (∀ rs : List ScanResp, (∀ r ∈ rs, r.1 ≠ "0") → scanLoop pfx rs [] = none)
    ∧ (∀ (cfg : FacadeConfig) (rs : List ScanResp),
        getKeysByPattern cfg rs = scanLoop cfg.keyPfx rs []) := by
  refine ⟨?_, ?_, ?_, ?_⟩
  · simpa using scanLoop_sentinel pfx rs1 ks rs2 [] h
  · intro c rest acc hc
    rw [scanLoop_cons, if_neg hc, stripBatch_nil, List.append_nil]
  · intro rs hrs
    exact scanLoop_no_sentinel pfx rs [] hrs
  · intro cfg rs
    rfl

theorem C3_scan_cursor_loop_witness :
    scanLoop "app:" [("5", []), ("7", ["app:a", "app:b"]), ("0", ["app:c"])] []
      = some ["a", "b", "c"] := by
  have h := C3_scan_cursor_loop "app:" [("5", []), ("7", ["app:a", "app:b"])]
    [("9", ["app:z"])] ["app:c"] (by decide)
  exact h.1.trans (by decide)

/-- Claim C4: `delPattern` has no per-call override and uses the facade-level
fire-and-forget default alone: an empty scan result returns 0 with no DEL
issued; with a blocking default the found keys are deleted, awaited, and the
store's count is returned; with a fire-and-forget default the DEL is issued
but not awaited and 0 is returned. -/
theorem C4_delPattern_facade_mode (cfg : FacadeConfig) (rs : List ScanResp)
    (n : Nat) (ks : List String) (h : scanLoop cfg.keyPfx rs [] = some ks) :
    (ks = [] → delPattern cfg rs n = some ⟨none, false, 0⟩)
    ∧ (ks ≠ [] → cfg.fireAndForget = false →
        delPattern cfg rs n = some ⟨some ks, true, n⟩)
    ∧ (ks ≠ [] → cfg.fireAndForget = true →
        delPattern cfg rs n = some ⟨some ks, false, 0⟩) := by
  unfold delPattern
  rw [h]
  refine ⟨?_, ?_, ?_⟩
  · intro hks
    subst hks
    rfl
  · intro hks hfaf
    have hlen : ¬ ks.length = 0 := by simpa [List.length_eq_zero] using hks
    simp [hlen, hfaf]
  · intro hks hfaf
    have hlen : ¬ ks.length = 0 := by simpa [List.length_eq_zero] using hks
    simp [hlen, hfaf]

theorem C4_delPattern_facade_mode_witness :
    delPattern cfg0 [("0", ["app:a", "app:b"])] 2
      = some ⟨some ["a", "b"], true, 2⟩
    ∧ delPattern ⟨"app:", none, true⟩ [("0", ["app:a", "app:b"])] 2
      = some ⟨some ["a", "b"], false, 0⟩
    ∧ delPattern cfg0 [("0", [])] 2 = some ⟨none, false, 0⟩ := by
  refine ⟨?_, ?_, ?_⟩
  · exact (C4_delPattern_facade_mode cfg0 [("0", ["app:a", "app:b"])] 2
      ["a", "b"] (by decide)).2.1 (by decide) rfl
  · exact (C4_delPattern_facade_mode ⟨"app:", none, true⟩
      [("0", ["app:a", "app:b"])] 2 ["a", "b"] (by decide)).2.2 (by decide) rfl
  · exact (C4_delPattern_facade_mode cfg0 [("0", [])] 2 [] (by decide)).1 rfl

/-- Claim C5: `getOrSet` on a hit returns the decoded stored value and never
runs the compute function (and issues no set); on a miss it runs the compute
function exactly once, stores its result through `set` with the given TTL and
returns the computed value (when the internal awaited set succeeds); a compute
failure propagates and nothing is cached. -/
theorem C5_getOrSet_cache_aside (cfg : FacadeConfig) {α : Type}
    (codec : Codec α) (ttl : Option Nat) (ack : Except String Unit)
    (key raw : String) (fnResult : Except String α) :
    (∀ v, codec.dec raw = Except.ok v →
        getOrSet cfg codec (some raw) fnResult ttl ack key
          = ⟨0, none, Except.ok v⟩)
    ∧ (∀ w, fnResult = Except.ok w →
        (getOrSet cfg codec none fnResult ttl ack key).fnCalls = 1
        ∧ (getOrSet cfg codec none fnResult ttl ack key).innerSet
            = some (set cfg codec ack key w ttl none)
        ∧ ((set cfg codec ack key w ttl none).callerResult = Except.ok () →
            (getOrSet cfg codec none fnResult ttl ack key).result
              = Except.ok w))
    ∧ (∀ e, fnResult = Except.error e →
        getOrSet cfg codec none fnResult ttl ack key
          = ⟨1, none, Except.error e⟩) := by
  refine ⟨?_, ?_, ?_⟩
  · intro v hv
    simp [getOrSet, hv]
  · intro w hw
    subst hw
    refine ⟨?_, ?_, ?_⟩
    · cases hc : (set cfg codec ack key w ttl none).callerResult <;>
        simp [getOrSet, hc]
    · cases hc : (set cfg codec ack key w ttl none).callerResult <;>
        simp [getOrSet, hc]
    · intro hok
      simp [getOrSet, hok]
  · intro e he
    subst he
    rfl

theorem C5_getOrSet_cache_aside_witness :
    getOrSet cfg0 codecNat (some "42") (Except.ok 7) none (Except.ok ()) "k"
      = ⟨0, none, Except.ok 42⟩
    ∧ (getOrSet cfg0 codecNat none (Except.ok 7) none (Except.ok ()) "k").result
      = Except.ok 7
    ∧ getOrSet cfg0 codecNat none (Except.error "boom") none (Except.ok ()) "k"
      = ⟨1, none, Except.error "boom"⟩ := by
  have h := C5_getOrSet_cache_aside cfg0 codecNat none (Except.ok ()) "k" "42"
    (Except.ok 7)
  have h2 := C5_getOrSet_cache_aside cfg0 codecNat none (Except.ok ()) "k" "42"
    (Except.error "boom")
  exact ⟨h.1 42 rfl, (h.2.1 7 rfl).2.2 rfl, h2.2.2 "boom" rfl⟩

/-- Claim C6: `getStats` never propagates an exception: a non-ready transport
yields `{connected := false, keyCount := 0, error := "Redis not connected"}`
(a non-empty message) with no store call issued, and a failure of the DBSIZE
or INFO call is converted into a snapshot with `connected := false`,
`keyCount := 0` and the error message, not a thrown error. -/
theorem C6_getStats_never_throws (status : String) (dbsizeR : Except String Nat)
    (infoR : Except String String) :
    (status ≠ "ready" →
        getStats status dbsizeR infoR
          = (⟨false, 0, none, none, none, some "Redis not connected"⟩, [])
        ∧ "Redis not connected" ≠ "")
    ∧ (∀ e, status = "ready" → dbsizeR = Except.error e →
        getStats status dbsizeR infoR
          = (⟨false, 0, none, none, none, some e⟩, ["dbsize"]))
    ∧ (∀ e n, status = "ready" → dbsizeR = Except.ok n →
        infoR = Except.error e →
        getStats status dbsizeR infoR
          = (⟨false, 0, none, none, none, some e⟩, ["dbsize", "info"])) := by
  refine ⟨?_, ?_, ?_⟩
  · intro hs
    exact ⟨by simp [getStats, hs], by decide⟩
  · intro e hs hd
    subst hs; subst hd
    simp [getStats]
  · intro e n hs hd hi
    subst hs; subst hd; subst hi
    simp [getStats]

theorem C6_getStats_never_throws_witness :
    getStats "connecting" (Except.ok 3) (Except.ok "")
      = (⟨false, 0, none, none, none, some "Redis not connected"⟩, [])
    ∧ getStats "ready" (Except.error "timeout") (Except.ok "")
      = (⟨false, 0, none, none, none, some "timeout"⟩, ["dbsize"]) := by
  refine ⟨?_, ?_⟩
  · exact ((C6_getStats_never_throws "connecting" (Except.ok 3)
      (Except.ok "")).1 (by decide)).1
  · exact (C6_getStats_never_throws "ready" (Except.error "timeout")
      (Except.ok "")).2.1 "timeout" rfl rfl

/-- Claim C9: the cache-population write of `getOrSet` is `this.set(key,
result, ttl)` with no per-call options, so its execution mode is always the
facade default and the caller cannot override it; under a fire-and-forget
facade default the computed value is returned even when the store write
fails (the failure is only logged, never surfaced). -/
theorem C9_getOrSet_inner_set_default (cfg : FacadeConfig) {α : Type}
    (codec : Codec α) (ttl : Option Nat) (ack : Except String Unit)
    (key : String) (w : α) :
    (getOrSet cfg codec none (Except.ok w) ttl ack key).innerSet
        = some (set cfg codec ack key w ttl none)
    ∧ (set cfg codec ack key w ttl none).faf = cfg.fireAndForget
    ∧ (cfg.fireAndForget = true →
        (getOrSet cfg codec none (Except.ok w) ttl ack key).result
          = Except.ok w) := by
  refine ⟨?_, rfl, ?_⟩
  · cases hc : (set cfg codec ack key w ttl none).callerResult <;>
      simp [getOrSet, hc]
  · intro hfaf
    have hok : (set cfg codec ack key w ttl none).callerResult
        = Except.ok () := by
      simp [set, resolveFireAndForget, hfaf]
    simp [getOrSet, hok]

theorem C9_getOrSet_inner_set_default_witness :
    (getOrSet ⟨"app:", none, true⟩ codecNat none (Except.ok 7) none
      (Except.error "write lost") "k").result = Except.ok 7 :=
  (C9_getOrSet_inner_set_default ⟨"app:", none, true⟩ codecNat none
    (Except.error "write lost") "k" 7).2.2 rfl

/-- Claim C10: `delPatterns` is not atomic on failure: when `delPattern`
succeeds on a first group of patterns (reaching state `s2` with accumulated
count `n`) and then fails on the next pattern, the error propagates, the
final state is `s2` (the earlier deletions remain in effect) and the
accumulated count `n` is absent from the result. -/
theorem C10_delPatterns_not_atomic {σ : Type}
    (dp : σ → String → Except String (Nat × σ)) (s s2 : σ)
    (ps1 ps2 : List String) (p : String) (n : Nat) (e : String)
    (h1 : delPatternsLoop dp s 0 ps1 = (Except.ok n, s2))
    (h2 : dp s2 p = Except.error e) :
    delPatterns dp s (ps1 ++ p :: ps2) = (Except.error e, s2) := by
  unfold delPatterns
  have hlen : ¬ (ps1 ++ p :: ps2).length = 0 := by simp
  rw [if_neg hlen, delPatternsLoop_append dp ps1 (p :: ps2) s 0 n s2 h1,
      delPatternsLoop, h2]

theorem C10_delPatterns_not_atomic_witness :
    delPatterns dpTest ["a", "b", "c"] ["a", "boom", "c"]
      = (Except.error "fail", ["b", "c"]) :=
  C10_delPatterns_not_atomic dpTest ["a", "b", "c"] ["b", "c"] ["a"] ["c"]
    "boom" 1 "fail" rfl rfl

end RedisCache
